import Mathlib

/-!
Verification of `pg_passwordguard.c`, a PostgreSQL password-complexity hook.

The embedding models `pg_passwordguard_check` (src/pg_passwordguard.c,
lines 133-291) as a pure function. C strings (`const char *`) are modelled
as `Option (List Nat)` (NULL versus a list of bytes). The observable
behaviour of the function is an `Outcome`: the ordered list of violations
reported via `ereport(WARNING, ...)` (log-only mode), plus the violation
reported via `ereport(ERROR, ...)` if one is raised (`ereport(ERROR, ...)`
aborts the function, so at most one error is ever raised and nothing after
it runs). The seven GUC variables become an explicit `PolicyConfig` record.

Character classification follows `<ctype.h>` in the C/POSIX locale
(`isupper`, `islower`, `isdigit`, `tolower` over `unsigned char`), which is
the byte-wise ASCII classification the code relies on.
-/

namespace PgGuard

/-- PostgreSQL `PasswordType` as seen by `check_password_hook`. -/
inductive PasswordType
  | plaintext
  | md5
  | scram_sha_256
deriving DecidableEq

/-- The violations the C code can report, each carrying the data its
`errmsg`/`errdetail` renders (`TooShort` carries `len` and `min_length`). -/
inductive Violation
  | TooShort (actual required : Nat)
  | MissingUpper
  | MissingLower
  | MissingDigit
  | MissingSpecial
  | ContainsUsername
deriving DecidableEq

/-- The seven `pg_passwordguard.*` GUC variables (lines 35-41). -/
structure PolicyConfig where
  min_length : Nat
  require_upper : Bool
  require_lower : Bool
  require_digit : Bool
  require_special : Bool
  reject_username : Bool
  log_only : Bool
deriving DecidableEq

/-- Observable outcome of one call: WARNING reports in emission order, and
the ERROR report if the call aborted with one. -/
structure Outcome where
  warnings : List Violation
  error : Option Violation
deriving DecidableEq

/-- `isupper` on a byte, C/POSIX locale: the ASCII range `A`..`Z`. -/
def isupper (c : Nat) : Bool := 65 ≤ c && c ≤ 90

/-- `islower` on a byte, C/POSIX locale: the ASCII range `a`..`z`. -/
def islower (c : Nat) : Bool := 97 ≤ c && c ≤ 122

/-- `isdigit` on a byte: the ASCII range `0`..`9`. -/
def isdigit (c : Nat) : Bool := 48 ≤ c && c ≤ 57

/-- `tolower` on a byte, C/POSIX locale: fold `A`..`Z` to `a`..`z`,
leave every other byte unchanged. -/
def tolower (c : Nat) : Nat := if 65 ≤ c && c ≤ 90 then c + 32 else c

/-- The four categories of the classification loop (lines 197-209). -/
inductive CharClass
  | upper
  | lower
  | digit
  | special
deriving DecidableEq

/-- The `else if` chain of the classification loop: each byte falls in
exactly one category, and anything that is not an ASCII letter or digit
is `special`. -/
def classify (c : Nat) : CharClass :=
  if isupper c then CharClass.upper
  else if islower c then CharClass.lower
  else if isdigit c then CharClass.digit
  else CharClass.special

/-- The inner comparison of `strstr`: does `needle` start at the head of
`hay`? -/
def isPrefixB : List Nat → List Nat → Bool
  | [], _ => true
  | _ :: _, [] => false
  | a :: as, b :: bs => a == b && isPrefixB as bs

/-- `strstr(hay, needle) != NULL`: `needle` occurs at some position of
`hay`; the empty needle matches everywhere. -/
def strstrFound (needle : List Nat) : List Nat → Bool
  | [] => isPrefixB needle []
  | b :: rest => isPrefixB needle (b :: rest) || strstrFound needle rest

/-- Modelled from the spec: the username-containment condition as the spec
words it, occurrence of `needle` as a contiguous substring of `hay`.
Compared against `strstrFound`, the embedding of the code's `strstr`. -/
def occursIn (needle hay : List Nat) : Prop :=
  ∃ s t, hay = s ++ needle ++ t

/-- One `ereport` of a violation: `WARNING` (log-only mode) prepends the
violation to whatever the rest of the function reports and continues;
`ERROR` (enforcing mode) aborts the function, discarding the rest. -/
def emit (log_only : Bool) (v : Violation) (rest : Outcome) : Outcome :=
  if log_only then ⟨v :: rest.warnings, rest.error⟩ else ⟨[], some v⟩

/-- One `if (require_x && !has_x) { ereport(...) }` block of lines
212-257: when the guard fires, report the violation (continuing with the
rest of the function in log-only mode, aborting otherwise); when it does
not, fall through to the rest. -/
def classStage (flag : Bool) (has : Bool) (v : Violation) (log_only : Bool)
    (rest : Outcome) : Outcome :=
  if flag && !has then emit log_only v rest else rest

/-- The username-containment block (lines 260-288): with
`reject_username` set and a non-NULL username, fold both strings to
lowercase bytewise with `tolower` and report `ContainsUsername` when
`strstr` finds the folded username inside the folded password. Nothing
follows this block in the C function. -/
def usernameStage : Option (List Nat) → List Nat → PolicyConfig → Outcome
  | none, _, _ => ⟨[], none⟩
  | some user, password, cfg =>
    if cfg.reject_username &&
        strstrFound (user.map tolower) (password.map tolower) then
      emit cfg.log_only Violation.ContainsUsername ⟨[], none⟩
    else ⟨[], none⟩

/-- Lines 197-288: the classification pass (`has_x` is whether the
`else if` chain put some byte of the password into category `x`)
followed by the four requirement blocks in source order and then the
username block. -/
def rulesStage (username : Option (List Nat)) (password : List Nat)
    (cfg : PolicyConfig) : Outcome :=
  classStage cfg.require_upper
    (password.any fun c => classify c == CharClass.upper)
    Violation.MissingUpper cfg.log_only
    (classStage cfg.require_lower
      (password.any fun c => classify c == CharClass.lower)
      Violation.MissingLower cfg.log_only
      (classStage cfg.require_digit
        (password.any fun c => classify c == CharClass.digit)
        Violation.MissingDigit cfg.log_only
        (classStage cfg.require_special
          (password.any fun c => classify c == CharClass.special)
          Violation.MissingSpecial cfg.log_only
          (usernameStage username password cfg))))

/-- `pg_passwordguard_check` (lines 133-291), minus the chaining to a
previously registered hook and the `DEBUG1` log line, neither of which
reports a violation. Control flow, in source order:
non-plaintext password types return at once (lines 162-167); a NULL
password returns at once (lines 170-171); a password shorter than
`min_length` reports `TooShort` and then `return`s, skipping every later
rule even in log-only mode (lines 177-194); otherwise the classification
pass and the remaining rule blocks of `rulesStage` run. -/
def pg_passwordguard_check (username shadow_pass : Option (List Nat))
    (password_type : PasswordType) (cfg : PolicyConfig) : Outcome :=
  if password_type ≠ PasswordType.plaintext then ⟨[], none⟩
  else
    match shadow_pass with
    | none => ⟨[], none⟩
    | some password =>
      if password.length < cfg.min_length then
        if cfg.log_only then
          ⟨[Violation.TooShort password.length cfg.min_length], none⟩
        else ⟨[], some (Violation.TooShort password.length cfg.min_length)⟩
      else rulesStage username password cfg

/-- The spec's `Verdict` of a call: every violation the call reported,
warnings in emission order followed by the aborting error if any. -/
def verdict (o : Outcome) : List Violation :=
  o.warnings ++ o.error.toList

/-- The GUC defaults (lines 35-41): `min_length = 12`, every flag on,
`log_only` off. -/
def defaultCfg : PolicyConfig := ⟨12, true, true, true, true, true, false⟩

/-- The defaults with `log_only` switched on. -/
def logCfg : PolicyConfig := ⟨12, true, true, true, true, true, true⟩

/-- The kind of a violation, forgetting the `TooShort` payload. -/
inductive VKind
  | tooShort
  | missingUpper
  | missingLower
  | missingDigit
  | missingSpecial
  | containsUsername
deriving DecidableEq

/-- Kind of each violation. -/
def kindOf : Violation → VKind
  | Violation.TooShort _ _ => VKind.tooShort
  | Violation.MissingUpper => VKind.missingUpper
  | Violation.MissingLower => VKind.missingLower
  | Violation.MissingDigit => VKind.missingDigit
  | Violation.MissingSpecial => VKind.missingSpecial
  | Violation.ContainsUsername => VKind.containsUsername

/-- The four `require_*` flags, as selectors. -/
inductive ReqFlag
  | upper
  | lower
  | digit
  | special
deriving DecidableEq

/-- The violation kind guarded by each `require_*` flag. -/
def flagKind : ReqFlag → VKind
  | ReqFlag.upper => VKind.missingUpper
  | ReqFlag.lower => VKind.missingLower
  | ReqFlag.digit => VKind.missingDigit
  | ReqFlag.special => VKind.missingSpecial

/-- Switch one `require_*` flag off, leaving the rest of the
configuration unchanged. -/
def disableFlag : ReqFlag → PolicyConfig → PolicyConfig
  | ReqFlag.upper, cfg =>
    ⟨cfg.min_length, false, cfg.require_lower, cfg.require_digit,
      cfg.require_special, cfg.reject_username, cfg.log_only⟩
  | ReqFlag.lower, cfg =>
    ⟨cfg.min_length, cfg.require_upper, false, cfg.require_digit,
      cfg.require_special, cfg.reject_username, cfg.log_only⟩
  | ReqFlag.digit, cfg =>
    ⟨cfg.min_length, cfg.require_upper, cfg.require_lower, false,
      cfg.require_special, cfg.reject_username, cfg.log_only⟩
  | ReqFlag.special, cfg =>
    ⟨cfg.min_length, cfg.require_upper, cfg.require_lower,
      cfg.require_digit, false, cfg.reject_username, cfg.log_only⟩

/-! Helper lemmas about the embedding. -/

/-- A password shorter than `min_length` yields the verdict
`[TooShort len min_length]` in both modes: the length branch either warns
and returns or raises the error, so no later rule contributes. -/
theorem verdict_short (u : Option (List Nat)) (p : List Nat)
    (cfg : PolicyConfig) (h : p.length < cfg.min_length) :
    verdict (pg_passwordguard_check u (some p) PasswordType.plaintext cfg) =
      [Violation.TooShort p.length cfg.min_length] := by
  cases hl : cfg.log_only <;>
    simp [pg_passwordguard_check, verdict, h, hl]

/-- A log-only `ereport(WARNING, ...)` prepends its violation to the
verdict of the rest of the call. -/
theorem verdict_emit_log (v : Violation) (rest : Outcome) :
    verdict (emit true v rest) = v :: verdict rest := by
  simp [emit, verdict]

/-- In log-only mode a requirement block contributes its violation to the
verdict exactly when its guard fires, before whatever the rest reports. -/
theorem verdict_classStage_log (f h : Bool) (v : Violation) (rest : Outcome) :
    verdict (classStage f h v true rest) =
      (if f && !h then [v] else []) ++ verdict rest := by
  unfold classStage
  split_ifs <;> simp [emit, verdict]

/-- In log-only mode a requirement block never raises an error of its own. -/
theorem error_classStage_log (f h : Bool) (v : Violation) (rest : Outcome) :
    (classStage f h v true rest).error = rest.error := by
  unfold classStage
  split_ifs <;> simp [emit]

/-- In log-only mode the username block raises no error. -/
theorem error_usernameStage_log (u : Option (List Nat)) (p : List Nat)
    (cfg : PolicyConfig) (hlog : cfg.log_only = true) :
    (usernameStage u p cfg).error = none := by
  cases u with
  | none => rfl
  | some user =>
    cases hc : cfg.reject_username &&
        strstrFound (user.map tolower) (p.map tolower) <;>
      simp [usernameStage, emit, hc, hlog]

/-- The verdict of the username block: `ContainsUsername` exactly when a
username is present, `reject_username` is set, and the folded `strstr`
search finds it (in either mode: the block is last, so warning and error
yield the same verdict). -/
theorem verdict_usernameStage (user p : List Nat) (cfg : PolicyConfig) :
    verdict (usernameStage (some user) p cfg) =
      (if cfg.reject_username &&
          strstrFound (user.map tolower) (p.map tolower) then
        [Violation.ContainsUsername]
      else []) := by
  cases hc : cfg.reject_username &&
      strstrFound (user.map tolower) (p.map tolower) <;>
    cases hl : cfg.log_only <;>
      simp [usernameStage, emit, verdict, hc, hl]

/-- In log-only mode no `ereport(ERROR, ...)` is ever reached: the
outcome's error component is `none` for every input. -/
theorem error_none_logOnly (u p : Option (List Nat)) (t : PasswordType)
    (cfg : PolicyConfig) (hlog : cfg.log_only = true) :
    (pg_passwordguard_check u p t cfg).error = none := by
  cases p with
  | none => cases t <;> rfl
  | some pw =>
    cases t with
    | plaintext =>
      unfold pg_passwordguard_check
      by_cases hlen : pw.length < cfg.min_length <;>
        simp [hlen, hlog, rulesStage, error_classStage_log,
          error_usernameStage_log u pw cfg hlog]
    | md5 => rfl
    | scram_sha_256 => rfl

/-- In log-only mode, for a plaintext password meeting the length bound,
the verdict is the concatenation of the four requirement segments and the
username segment, in source order. -/
theorem verdict_logOnly (u : Option (List Nat)) (p : List Nat)
    (cfg : PolicyConfig) (hlog : cfg.log_only = true)
    (hlen : cfg.min_length ≤ p.length) :
    verdict (pg_passwordguard_check u (some p) PasswordType.plaintext cfg) =
      (if cfg.require_upper &&
          !(p.any fun c => classify c == CharClass.upper) then
        [Violation.MissingUpper] else []) ++
      (if cfg.require_lower &&
          !(p.any fun c => classify c == CharClass.lower) then
        [Violation.MissingLower] else []) ++
      (if cfg.require_digit &&
          !(p.any fun c => classify c == CharClass.digit) then
        [Violation.MissingDigit] else []) ++
      (if cfg.require_special &&
          !(p.any fun c => classify c == CharClass.special) then
        [Violation.MissingSpecial] else []) ++
      verdict (usernameStage u p cfg) := by
  have hnl : ¬ (p.length < cfg.min_length) := not_lt.mpr hlen
  simp [pg_passwordguard_check, hnl, rulesStage, hlog,
    verdict_classStage_log, List.append_assoc]

/-- `isPrefixB` decides whether the haystack starts with the needle. -/
theorem isPrefixB_iff (n : List Nat) : ∀ h : List Nat,
    isPrefixB n h = true ↔ ∃ t, h = n ++ t := by
  induction n with
  | nil => intro h; simp [isPrefixB]
  | cons a as ih =>
    intro h
    cases h with
    | nil => simp [isPrefixB]
    | cons b bs =>
      simp only [isPrefixB, Bool.and_eq_true, beq_iff_eq, ih,
        List.cons_append, List.cons.injEq]
      constructor
      · rintro ⟨hab, t, ht⟩
        exact ⟨t, hab.symm, ht⟩
      · rintro ⟨t, hba, ht⟩
        exact ⟨hba.symm, t, ht⟩

/-- Splitting an occurrence in a cons: either the needle starts at the
head, or it occurs in the tail. -/
theorem occursIn_cons (needle : List Nat) (b : Nat) (bs : List Nat) :
    occursIn needle (b :: bs) ↔
      (∃ t, b :: bs = needle ++ t) ∨ occursIn needle bs := by
  constructor
  · rintro ⟨s, t, hst⟩
    cases s with
    | nil => exact Or.inl ⟨t, by simpa using hst⟩
    | cons x xs =>
      simp only [List.cons_append, List.cons.injEq] at hst
      exact Or.inr ⟨xs, t, hst.2⟩
  · rintro (⟨t, ht⟩ | ⟨s, t, hst⟩)
    · exact ⟨[], t, by simpa using ht⟩
    · exact ⟨b :: s, t, by simp [hst]⟩

/-- Correctness of the `strstr` model: the search succeeds exactly when
the needle occurs as a contiguous substring of the haystack. -/
theorem strstrFound_iff (needle : List Nat) : ∀ hay : List Nat,
    strstrFound needle hay = true ↔ occursIn needle hay := by
  intro hay
  induction hay with
  | nil =>
    simp only [strstrFound, isPrefixB_iff, occursIn]
    constructor
    · rintro ⟨t, ht⟩
      exact ⟨[], t, by simpa using ht⟩
    · rintro ⟨s, t, hst⟩
      refine ⟨t, ?_⟩
      rcases List.append_eq_nil.mp (List.append_eq_nil.mp hst.symm).1 with ⟨hs, hn⟩
      simp [hs, hn] at hst ⊢
      simpa [hn] using hst
  | cons b bs ih =>
    simp only [strstrFound, Bool.or_eq_true, isPrefixB_iff, ih,
      occursIn_cons]

/-- Every violation a requirement block adds is its own; anything else in
its verdict comes from the rest of the call. -/
theorem mem_verdict_classStage (f h : Bool) (w : Violation) (log : Bool)
    (rest : Outcome) (v : Violation)
    (hv : v ∈ verdict (classStage f h w log rest)) :
    v = w ∨ v ∈ verdict rest := by
  unfold classStage emit at hv
  split_ifs at hv <;> simp [verdict] at hv ⊢ <;> tauto

/-- The only violation the username block can report is
`ContainsUsername`. -/
theorem mem_verdict_usernameStage (u : Option (List Nat)) (p : List Nat)
    (cfg : PolicyConfig) (v : Violation)
    (hv : v ∈ verdict (usernameStage u p cfg)) :
    v = Violation.ContainsUsername := by
  cases u with
  | none => simp [usernameStage, verdict] at hv
  | some user =>
    rcases hc : cfg.reject_username &&
        strstrFound (user.map tolower) (p.map tolower) with _ | _ <;>
      rcases hl : cfg.log_only with _ | _ <;>
        simp [usernameStage, emit, verdict, hc, hl] at hv <;>
          exact hv

/-- The rule blocks after the length check never report `TooShort`:
everything in their verdict is a `Missing*` or `ContainsUsername`. -/
theorem mem_verdict_rulesStage (u : Option (List Nat)) (p : List Nat)
    (cfg : PolicyConfig) (v : Violation)
    (hv : v ∈ verdict (rulesStage u p cfg)) :
    v = Violation.MissingUpper ∨ v = Violation.MissingLower ∨
      v = Violation.MissingDigit ∨ v = Violation.MissingSpecial ∨
      v = Violation.ContainsUsername := by
  unfold rulesStage at hv
  rcases mem_verdict_classStage _ _ _ _ _ _ hv with h | hv
  · exact Or.inl h
  rcases mem_verdict_classStage _ _ _ _ _ _ hv with h | hv
  · exact Or.inr (Or.inl h)
  rcases mem_verdict_classStage _ _ _ _ _ _ hv with h | hv
  · exact Or.inr (Or.inr (Or.inl h))
  rcases mem_verdict_classStage _ _ _ _ _ _ hv with h | hv
  · exact Or.inr (Or.inr (Or.inr (Or.inl h)))
  exact Or.inr (Or.inr (Or.inr (Or.inr
    (mem_verdict_usernameStage u p cfg v hv))))

/-- The username block reports nothing when no username is supplied. -/
theorem cu_not_mem_rulesStage_none (p : List Nat) (cfg : PolicyConfig) :
    Violation.ContainsUsername ∉ verdict (rulesStage none p cfg) := by
  intro hv
  unfold rulesStage at hv
  rcases mem_verdict_classStage _ _ _ _ _ _ hv with h | hv
  · simp at h
  rcases mem_verdict_classStage _ _ _ _ _ _ hv with h | hv
  · simp at h
  rcases mem_verdict_classStage _ _ _ _ _ _ hv with h | hv
  · simp at h
  rcases mem_verdict_classStage _ _ _ _ _ _ hv with h | hv
  · simp at h
  simp [usernameStage, verdict] at hv

/-! The claims. -/

/-- C1 fails on the code: in log-only mode a too-short password that also
lacks a required character class (here, an uppercase letter) yields only
the `TooShort` violation, because the length branch `return`s before the
class scan runs. -/
theorem C1_counterexample :
    logCfg.log_only = true ∧ logCfg.require_upper = true ∧
    ([97] : List Nat).any (fun c => classify c == CharClass.upper) = false ∧
    Violation.TooShort 1 12 ∈ verdict (pg_passwordguard_check none
      (some [97]) PasswordType.plaintext logCfg) ∧
    Violation.MissingUpper ∉ verdict (pg_passwordguard_check none
      (some [97]) PasswordType.plaintext logCfg) := by
  decide

/-- C1, amended: for every plaintext, non-null password shorter than
`min_length`, the check short-circuits after the length rule, so the
verdict is exactly `[TooShort actual required]` in both log-only and
enforcing modes; the remaining rules are not evaluated. -/
theorem C1_theorem (u : Option (List Nat)) (p : List Nat)
    (cfg : PolicyConfig) (h : p.length < cfg.min_length) :
    verdict (pg_passwordguard_check u (some p) PasswordType.plaintext cfg) =
      [Violation.TooShort p.length cfg.min_length] :=
  verdict_short u p cfg h

/-- Witness for C1 at the one-byte password `"a"` under the log-only
defaults. -/
theorem C1_witness :
    ([97] : List Nat).length < logCfg.min_length ∧
    verdict (pg_passwordguard_check none (some [97])
      PasswordType.plaintext logCfg) = [Violation.TooShort 1 12] :=
  ⟨by decide, C1_theorem none [97] logCfg (by decide)⟩

/-- C2 fails on the code for the empty username: `strstr` with an empty
needle matches every haystack, so `reject_username = true` with
`username = ""` does produce `ContainsUsername` (here on a password that
satisfies every other rule, under the enforcing defaults). -/
theorem C2_counterexample :
    defaultCfg.reject_username = true ∧
    Violation.ContainsUsername ∈ verdict (pg_passwordguard_check (some [])
      (some [65, 98, 99, 100, 101, 102, 103, 49, 50, 51, 33, 120])
      PasswordType.plaintext defaultCfg) := by
  decide

/-- C2, amended: only a null (absent) username is exempt: with
`username = NULL` the verdict never contains `ContainsUsername`, for any
password, password type and configuration (in particular with
`reject_username = true`). -/
theorem C2_theorem (sp : Option (List Nat)) (t : PasswordType)
    (cfg : PolicyConfig) :
    Violation.ContainsUsername ∉
      verdict (pg_passwordguard_check none sp t cfg) := by
  cases sp with
  | none => cases t <;> simp [pg_passwordguard_check, verdict]
  | some pw =>
    cases t with
    | plaintext =>
      by_cases hlen : pw.length < cfg.min_length
      · rw [verdict_short none pw cfg hlen]
        simp
      · have hv : pg_passwordguard_check none (some pw)
            PasswordType.plaintext cfg = rulesStage none pw cfg := by
          simp [pg_passwordguard_check, hlen]
        rw [hv]
        exact cu_not_mem_rulesStage_none pw cfg
    | md5 => simp [pg_passwordguard_check, verdict]
    | scram_sha_256 => simp [pg_passwordguard_check, verdict]

/-- C3: a null password is a complete no-op for every username, password
type and configuration: no warning, no error. -/
theorem C3_theorem (u : Option (List Nat)) (t : PasswordType)
    (cfg : PolicyConfig) :
    pg_passwordguard_check u none t cfg = ⟨[], none⟩ := by
  cases t <;> rfl

/-- C4 fails on the code: under the enforcing defaults the empty password
(one of the input shapes the claim lists) makes the check raise an error
via `ereport(ERROR, ...)`, rather than returning the verdict normally. -/
theorem C4_counterexample :
    (pg_passwordguard_check none (some []) PasswordType.plaintext
      defaultCfg).error = some (Violation.TooShort 0 12) := by
  decide

/-- C4, amended: in log-only mode the check raises no error for any input
shape whatsoever and only returns warnings; it is in enforcing mode that a
policy violation is surfaced as a raised error. -/
theorem C4_theorem (u sp : Option (List Nat)) (t : PasswordType)
    (cfg : PolicyConfig) (hlog : cfg.log_only = true) :
    (pg_passwordguard_check u sp t cfg).error = none :=
  error_none_logOnly u sp t cfg hlog

/-- Witness for C4 at the empty password under the log-only defaults. -/
theorem C4_witness :
    logCfg.log_only = true ∧
    (pg_passwordguard_check none (some []) PasswordType.plaintext
      logCfg).error = none :=
  ⟨rfl, C4_theorem none (some []) PasswordType.plaintext logCfg rfl⟩

/-- C5: for every non-null plaintext password, the `TooShort` violations
of the verdict are exactly `[TooShort actual required]` with
`actual = length(password)` and `required = min_length` when the password
is shorter than `min_length`, and there are none otherwise. -/
theorem C5_theorem (u : Option (List Nat)) (p : List Nat)
    (cfg : PolicyConfig) :
    (verdict (pg_passwordguard_check u (some p)
        PasswordType.plaintext cfg)).filter
        (fun v => kindOf v == VKind.tooShort) =
      (if p.length < cfg.min_length then
        [Violation.TooShort p.length cfg.min_length]
      else []) := by
  by_cases hlen : p.length < cfg.min_length
  · rw [verdict_short u p cfg hlen, if_pos hlen]
    simp [kindOf]
  · rw [if_neg hlen]
    have hv : pg_passwordguard_check u (some p)
        PasswordType.plaintext cfg = rulesStage u p cfg := by
      simp [pg_passwordguard_check, hlen]
    rw [hv, List.filter_eq_nil_iff]
    intro v hvm
    rcases mem_verdict_rulesStage u p cfg v hvm with h | h | h | h | h <;>
      subst h <;> simp [kindOf]

/-- C9: evaluation is deterministic: equal inputs give identical outcomes
(the same warnings in the same order, and the same error). -/
theorem C9_theorem (u1 u2 sp1 sp2 : Option (List Nat))
    (t1 t2 : PasswordType) (c1 c2 : PolicyConfig)
    (hu : u1 = u2) (hp : sp1 = sp2) (ht : t1 = t2) (hc : c1 = c2) :
    pg_passwordguard_check u1 sp1 t1 c1 =
      pg_passwordguard_check u2 sp2 t2 c2 := by
  rw [hu, hp, ht, hc]

/-- Witness for C9: two calls on the same concrete input coincide. -/
theorem C9_witness :
    pg_passwordguard_check none (some [97]) PasswordType.plaintext
        defaultCfg =
      pg_passwordguard_check none (some [97]) PasswordType.plaintext
        defaultCfg :=
  C9_theorem none none (some [97]) (some [97]) PasswordType.plaintext
    PasswordType.plaintext defaultCfg defaultCfg rfl rfl rfl rfl

/-- C10: a non-plaintext password type makes the check return at once:
no warning, no error, whatever the username, password and configuration. -/
theorem C10_theorem (u sp : Option (List Nat)) (t : PasswordType)
    (cfg : PolicyConfig) (h : t ≠ PasswordType.plaintext) :
    pg_passwordguard_check u sp t cfg = ⟨[], none⟩ := by
  simp [pg_passwordguard_check, h]

/-- Witness for C10 at an MD5 credential under the enforcing defaults. -/
theorem C10_witness :
    PasswordType.md5 ≠ PasswordType.plaintext ∧
    pg_passwordguard_check (some [97]) (some [97]) PasswordType.md5
      defaultCfg = ⟨[], none⟩ :=
  ⟨by decide, C10_theorem (some [97]) (some [97]) PasswordType.md5
    defaultCfg (by decide)⟩

/-- Only `ContainsUsername` can come out of the username block. -/
theorem not_mem_usernameStage (u : Option (List Nat)) (p : List Nat)
    (cfg : PolicyConfig) (v : Violation)
    (hne : v ≠ Violation.ContainsUsername) :
    v ∉ verdict (usernameStage u p cfg) :=
  fun hv => hne (mem_verdict_usernameStage u p cfg v hv)

/-- C6 fails on the code: under the enforcing defaults a password of
twelve dots has no digit and `require_digit` is set, yet `MissingDigit`
is not in the verdict (the `MissingUpper` error aborts the call first). -/
theorem C6_counterexample :
    defaultCfg.require_digit = true ∧
    ([46, 46, 46, 46, 46, 46, 46, 46, 46, 46, 46, 46] : List Nat).any
      (fun c => classify c == CharClass.digit) = false ∧
    Violation.MissingDigit ∉ verdict (pg_passwordguard_check none
      (some [46, 46, 46, 46, 46, 46, 46, 46, 46, 46, 46, 46])
      PasswordType.plaintext defaultCfg) := by
  decide

/-- C6, amended: the scan classifies every byte into exactly one of four
categories with everything outside the three ASCII letter/digit ranges
counting as special; and, in log-only mode and when the password meets
the minimum length (so neither the length `return` nor an enforcing
error cuts the scan off), each `Missing*` violation appears in the
verdict if and only if the matching `require_*` flag is set and no byte
of that category occurs in the password. -/
theorem C6_theorem (u : Option (List Nat)) (p : List Nat)
    (cfg : PolicyConfig) (hlog : cfg.log_only = true)
    (hlen : cfg.min_length ≤ p.length) :
    (∀ c : Nat, classify c = CharClass.special ↔
      (isupper c = false ∧ islower c = false ∧ isdigit c = false)) ∧
    (Violation.MissingUpper ∈ verdict (pg_passwordguard_check u (some p)
        PasswordType.plaintext cfg) ↔
      (cfg.require_upper = true ∧
        (p.any fun c => classify c == CharClass.upper) = false)) ∧
    (Violation.MissingLower ∈ verdict (pg_passwordguard_check u (some p)
        PasswordType.plaintext cfg) ↔
      (cfg.require_lower = true ∧
        (p.any fun c => classify c == CharClass.lower) = false)) ∧
    (Violation.MissingDigit ∈ verdict (pg_passwordguard_check u (some p)
        PasswordType.plaintext cfg) ↔
      (cfg.require_digit = true ∧
        (p.any fun c => classify c == CharClass.digit) = false)) ∧
    (Violation.MissingSpecial ∈ verdict (pg_passwordguard_check u (some p)
        PasswordType.plaintext cfg) ↔
      (cfg.require_special = true ∧
        (p.any fun c => classify c == CharClass.special) = false)) := by
  refine ⟨?_, ?_, ?_, ?_, ?_⟩
  · intro c
    unfold classify
    split_ifs <;> simp_all
  all_goals
    rw [verdict_logOnly u p cfg hlog hlen]
    simp only [List.mem_append]
    constructor
    · rintro ((((h | h) | h) | h) | h) <;>
        first
        | (split_ifs at h with hc <;> simp at h <;>
            simp_all)
        | exact absurd h (not_mem_usernameStage u p cfg _ (by simp))
    · rintro ⟨hf, hh⟩
      simp [hf, hh]

/-- Witness for C6 at twelve lowercase letters under the log-only
defaults: `MissingUpper` is in the verdict. -/
theorem C6_witness :
    Violation.MissingUpper ∈ verdict (pg_passwordguard_check none
      (some [97, 98, 99, 100, 101, 102, 103, 104, 105, 106, 107, 108])
      PasswordType.plaintext logCfg) :=
  ((C6_theorem none
      [97, 98, 99, 100, 101, 102, 103, 104, 105, 106, 107, 108]
      logCfg rfl (by decide)).2.1).mpr (by decide)

/-- C7 fails on the code: with username `"a"` and password `"ab"` under
the log-only defaults, the folded username does occur in the folded
password, yet the verdict has no `ContainsUsername` — the too-short
branch returned before the username rule could run. -/
theorem C7_counterexample :
    logCfg.reject_username = true ∧
    occursIn (List.map tolower [97]) (List.map tolower [97, 98]) ∧
    Violation.ContainsUsername ∉ verdict (pg_passwordguard_check
      (some [97]) (some [97, 98]) PasswordType.plaintext logCfg) :=
  ⟨rfl, ⟨[], [98], rfl⟩, by decide⟩

/-- C7, amended: in log-only mode, when the password meets the minimum
length (so no earlier rule cuts evaluation off), with
`reject_username = true` and a non-empty username, the verdict contains
`ContainsUsername` if and only if the ASCII-lowercase folding of the
username occurs as a substring of the ASCII-lowercase folding of the
password — in particular the match is insensitive to case permutations
of the username inside the password. -/
theorem C7_theorem (user p : List Nat) (cfg : PolicyConfig)
    (hlog : cfg.log_only = true) (hlen : cfg.min_length ≤ p.length)
    (hrej : cfg.reject_username = true) (hne : user ≠ []) :
    (Violation.ContainsUsername ∈ verdict (pg_passwordguard_check
        (some user) (some p) PasswordType.plaintext cfg) ↔
      occursIn (user.map tolower) (p.map tolower)) := by
  rw [verdict_logOnly (some user) p cfg hlog hlen, ← strstrFound_iff,
    verdict_usernameStage user p cfg]
  simp only [List.mem_append, hrej, Bool.true_and]
  constructor
  · rintro ((((h | h) | h) | h) | h) <;> split_ifs at h with hc <;>
      simp_all
  · intro hss
    simp [hss]

/-- Witness for C7: username `"a"` occurs (case-folded) in a password
starting with `'A'` that meets every other rule, and `ContainsUsername`
is in the log-only verdict. -/
theorem C7_witness :
    Violation.ContainsUsername ∈ verdict (pg_passwordguard_check
      (some [97]) (some [65, 98, 99, 100, 101, 102, 103, 49, 50, 51, 52, 33])
      PasswordType.plaintext logCfg) :=
  (C7_theorem [97] [65, 98, 99, 100, 101, 102, 103, 49, 50, 51, 52, 33]
      logCfg rfl (by decide) rfl (by decide)).mpr
    ⟨[], [98, 99, 100, 101, 102, 103, 49, 50, 51, 52, 33], rfl⟩

/-- Disabling a `require_*` flag leaves `min_length` unchanged. -/
theorem disableFlag_min_length (f : ReqFlag) (cfg : PolicyConfig) :
    (disableFlag f cfg).min_length = cfg.min_length := by
  cases f <;> rfl

/-- Disabling a `require_*` flag leaves `log_only` unchanged. -/
theorem disableFlag_log_only (f : ReqFlag) (cfg : PolicyConfig) :
    (disableFlag f cfg).log_only = cfg.log_only := by
  cases f <;> rfl

/-- Disabling a `require_*` flag leaves `reject_username` unchanged. -/
theorem disableFlag_reject_username (f : ReqFlag) (cfg : PolicyConfig) :
    (disableFlag f cfg).reject_username = cfg.reject_username := by
  cases f <;> rfl

/-- The username block only reads `reject_username` and `log_only`, so a
disabled class flag does not change its outcome. -/
theorem usernameStage_disableFlag (f : ReqFlag) (u : Option (List Nat))
    (p : List Nat) (cfg : PolicyConfig) :
    usernameStage u p (disableFlag f cfg) = usernameStage u p cfg := by
  cases u <;> cases f <;> rfl

/-- Log-only verdict of the rule blocks as the concatenation of their
segments. -/
theorem verdict_rulesStage_log (u : Option (List Nat)) (p : List Nat)
    (cfg : PolicyConfig) (hlog : cfg.log_only = true) :
    verdict (rulesStage u p cfg) =
      (if cfg.require_upper &&
          !(p.any fun c => classify c == CharClass.upper) then
        [Violation.MissingUpper] else []) ++
      (if cfg.require_lower &&
          !(p.any fun c => classify c == CharClass.lower) then
        [Violation.MissingLower] else []) ++
      (if cfg.require_digit &&
          !(p.any fun c => classify c == CharClass.digit) then
        [Violation.MissingDigit] else []) ++
      (if cfg.require_special &&
          !(p.any fun c => classify c == CharClass.special) then
        [Violation.MissingSpecial] else []) ++
      verdict (usernameStage u p cfg) := by
  simp [rulesStage, hlog, verdict_classStage_log, List.append_assoc]

/-- Filtering out `ContainsUsername`-free kinds leaves the username
segment untouched. -/
theorem filter_usernameStage (u : Option (List Nat)) (p : List Nat)
    (cfg : PolicyConfig) (f : ReqFlag) :
    (verdict (usernameStage u p cfg)).filter
        (fun v => !(kindOf v == flagKind f)) =
      verdict (usernameStage u p cfg) := by
  cases u with
  | none => cases f <;> rfl
  | some user =>
    rw [verdict_usernameStage user p cfg]
    split_ifs <;> cases f <;> rfl

/-- Filtering a segment that carries the disabled flag's own kind empties
it. -/
theorem filter_flagKind_self (f : ReqFlag) (w : Violation)
    (hk : kindOf w = flagKind f) (c : Prop) [Decidable c] :
    List.filter (fun v => !(kindOf v == flagKind f))
        (if c then [w] else []) = [] := by
  split_ifs <;> simp [hk]

/-- Filtering a segment of a different kind leaves it unchanged. -/
theorem filter_flagKind_other (f : ReqFlag) (w : Violation)
    (hk : kindOf w ≠ flagKind f) (c : Prop) [Decidable c] :
    List.filter (fun v => !(kindOf v == flagKind f))
        (if c then [w] else []) = (if c then [w] else []) := by
  split_ifs <;> simp [hk]

/-- C8 fails on the code: under the enforcing defaults a password of
twelve dots yields only the `MissingUpper` error, and disabling
`require_upper` makes `MissingLower` appear — another violation kind's
presence changed. -/
theorem C8_counterexample :
    verdict (pg_passwordguard_check none
        (some [46, 46, 46, 46, 46, 46, 46, 46, 46, 46, 46, 46, 46])
        PasswordType.plaintext defaultCfg) = [Violation.MissingUpper] ∧
    verdict (pg_passwordguard_check none
        (some [46, 46, 46, 46, 46, 46, 46, 46, 46, 46, 46, 46, 46])
        PasswordType.plaintext (disableFlag ReqFlag.upper defaultCfg)) =
      [Violation.MissingLower] := by
  decide

/-- C8, amended: in log-only mode, disabling any single `require_*` flag
turns the verdict into exactly the original verdict with the
corresponding `Missing*` violation kind filtered out, so no other
violation kind's presence changes; in enforcing mode only the first
violation is reported, so disabling a flag can make a later violation
kind appear instead. -/
theorem C8_theorem (f : ReqFlag) (u sp : Option (List Nat))
    (t : PasswordType) (cfg : PolicyConfig) (hlog : cfg.log_only = true) :
    verdict (pg_passwordguard_check u sp t (disableFlag f cfg)) =
      (verdict (pg_passwordguard_check u sp t cfg)).filter
        (fun v => !(kindOf v == flagKind f)) := by
  cases sp with
  | none => cases t <;> cases f <;> rfl
  | some pw =>
    cases t with
    | md5 => cases f <;> rfl
    | scram_sha_256 => cases f <;> rfl
    | plaintext =>
      have hlog' : (disableFlag f cfg).log_only = true := by
        rw [disableFlag_log_only]; exact hlog
      by_cases hlen : pw.length < cfg.min_length
      · have hlen' : pw.length < (disableFlag f cfg).min_length := by
          rw [disableFlag_min_length]; exact hlen
        rw [verdict_short u pw cfg hlen,
          verdict_short u pw (disableFlag f cfg) hlen',
          disableFlag_min_length]
        cases f <;> rfl
      · have hlen' : ¬pw.length < (disableFlag f cfg).min_length := by
          rw [disableFlag_min_length]; exact hlen
        have h1 : pg_passwordguard_check u (some pw)
            PasswordType.plaintext cfg = rulesStage u pw cfg := by
          simp [pg_passwordguard_check, hlen]
        have h2 : pg_passwordguard_check u (some pw)
            PasswordType.plaintext (disableFlag f cfg) =
            rulesStage u pw (disableFlag f cfg) := by
          simp [pg_passwordguard_check, hlen']
        rw [h1, h2, verdict_rulesStage_log u pw cfg hlog,
          verdict_rulesStage_log u pw (disableFlag f cfg) hlog',
          usernameStage_disableFlag]
        simp only [List.filter_append, filter_usernameStage u pw cfg f]
        cases f with
        | upper =>
          rw [filter_flagKind_self ReqFlag.upper Violation.MissingUpper rfl,
            filter_flagKind_other ReqFlag.upper Violation.MissingLower (by decide),
            filter_flagKind_other ReqFlag.upper Violation.MissingDigit (by decide),
            filter_flagKind_other ReqFlag.upper Violation.MissingSpecial (by decide)]
          simp [disableFlag]
        | lower =>
          rw [filter_flagKind_other ReqFlag.lower Violation.MissingUpper (by decide),
            filter_flagKind_self ReqFlag.lower Violation.MissingLower rfl,
            filter_flagKind_other ReqFlag.lower Violation.MissingDigit (by decide),
            filter_flagKind_other ReqFlag.lower Violation.MissingSpecial (by decide)]
          simp [disableFlag]
        | digit =>
          rw [filter_flagKind_other ReqFlag.digit Violation.MissingUpper (by decide),
            filter_flagKind_other ReqFlag.digit Violation.MissingLower (by decide),
            filter_flagKind_self ReqFlag.digit Violation.MissingDigit rfl,
            filter_flagKind_other ReqFlag.digit Violation.MissingSpecial (by decide)]
          simp [disableFlag]
        | special =>
          rw [filter_flagKind_other ReqFlag.special Violation.MissingUpper (by decide),
            filter_flagKind_other ReqFlag.special Violation.MissingLower (by decide),
            filter_flagKind_other ReqFlag.special Violation.MissingDigit (by decide),
            filter_flagKind_self ReqFlag.special Violation.MissingSpecial rfl]
          simp [disableFlag]

/-- Witness for C8: disabling `require_upper` under the log-only defaults
on a twelve-lowercase-letter password. -/
theorem C8_witness :
    verdict (pg_passwordguard_check none
        (some [97, 98, 99, 100, 101, 102, 103, 104, 105, 106, 107, 108])
        PasswordType.plaintext (disableFlag ReqFlag.upper logCfg)) =
      (verdict (pg_passwordguard_check none
          (some [97, 98, 99, 100, 101, 102, 103, 104, 105, 106, 107, 108])
          PasswordType.plaintext logCfg)).filter
        (fun v => !(kindOf v == flagKind ReqFlag.upper)) :=
  C8_theorem ReqFlag.upper none
    (some [97, 98, 99, 100, 101, 102, 103, 104, 105, 106, 107, 108])
    PasswordType.plaintext logCfg rfl

end PgGuard
